import Mathlib

/-!
Shallow embedding of src/scripts/google_cloud_platform_setting_example.py.

The script has two parts:
  * a `Config` class with three `lru_cache(maxsize=1)` classmethod accessors
    (`load_credentials`, `bigquery_client`, `genai_client`); we model the
    process as an explicit state record carrying the memoization slots and a
    file-read counter, and each accessor as a state-passing function
    returning `Except` for the Python exception paths;
  * two request-building functions: `function_calling_example`, which returns
    a nested dict literal (embedded here as a `JVal` JSON tree), and
    `gemini_function_calling_example`, which assembles two tools, a
    temperature-0.3 config and one `generate_content` call (embedded with the
    remote service abstracted as an oracle `Request → Response`).

File access (`open`), JSON decoding (`json.load`) and credential construction
(`Credentials.from_authorized_user_info`) are library calls outside the
repository; they are modelled abstractly by boolean fields of `Env`
(existence/readability of the file, well-formedness of its JSON, presence of
the required authorized-user fields), matching their documented behaviour:
`open` raises an OSError (FileAccessError) when the path is missing or
unreadable, `json.load` raises a decode error (ParseError) on malformed JSON,
and `from_authorized_user_info` raises a ValueError (ParseError) when the
required authorization fields are absent.
-/

namespace GcpSettingExample

/-- A JSON-like value, the shape of the Python dict literals in the script. -/
inductive JVal where
  | str : String → JVal
  | int : Int → JVal
  | bool : Bool → JVal
  | arr : List JVal → JVal
  | obj : List (String × JVal) → JVal
  deriving Repr

/-- Field lookup in a JSON object (first binding wins, as in a Python dict
literal without duplicate keys). -/
def jlookup (j : JVal) (k : String) : Option JVal :=
  match j with
  | .obj fields => fields.lookup k
  | _ => none

/-- Lookup along a path of object keys. -/
def jget (j : JVal) (path : List String) : Option JVal :=
  path.foldl (fun acc k => acc.bind (fun v => jlookup v k)) (some j)

/-- The `INTENT` module-level dict (insertion order preserved). -/
def INTENT : List (String × String) :=
  [("A", "訂單相關"),
   ("B", "產品與服務相關")]

/-- The `SUBINTENT` module-level dict (insertion order preserved). -/
def SUBINTENT : List (String × String) :=
  [("A1", "查詢訂單狀態/進度"),
   ("A2", "修改訂單內容"),
   ("A3", "取消訂單"),
   ("A4", "查詢發票/收據"),
   ("B1", "詢問產品資訊"),
   ("B2", "詢問庫存狀況"),
   ("B3", "詢問價格與優惠"),
   ("B4", "比較產品")]

/-- Rendering of a taxonomy entry as the longer enum string used inside the
tool schema: code, then ". ", then the label. -/
def enumOfTaxonomy (t : List (String × String)) : List JVal :=
  t.map (fun p => .str (p.1 ++ ". " ++ p.2))

/-- The dict literal returned by `function_calling_example` (the
session-update tool declaration), transcribed field for field from the
source. -/
def update_session_decl : JVal :=
  .obj [
    ("name", .str "update_session"),
    ("description", .str "依據電商對話，更新整體摘要、分數與建議回覆。這是主要的工具"),
    ("parameters", .obj [
      ("type", .str "object"),
      ("properties", .obj [
        ("session_end", .obj [
          ("type", .str "boolean"),
          ("description", .str "是否結束對話，如果為 True，則會將對話結束，並回傳整體摘要、分數與建議回覆。")]),
        ("session_summary_user", .obj [
          ("type", .str "string"),
          ("description", .str "從過往對話紀錄摘要對話內容。")]),
        ("consumer_sentiment_score", .obj [("type", .str "integer")]),
        ("consumer_urgency_score", .obj [("type", .str "integer")]),
        ("consumer_purchase_potential_score", .obj [("type", .str "integer")]),
        ("potential_interest_products", .obj [
          ("type", .str "array"),
          ("items", .obj [("type", .str "string")])]),
        ("intent", .obj [
          ("type", .str "string"),
          ("description", .str "將使用者最新的對話分類到以下其中一個主要意圖：A. 訂單相關, B. 產品與服務相關"),
          ("enum", .arr [
            .str "A. 訂單相關",
            .str "B. 產品與服務相關"])]),
        ("subintent", .obj [
          ("type", .str "array"),
          ("items", .obj [("type", .str "string")]),
          ("maxItems", .int 3),
          ("description", .str "根據主要意圖，列出相關的子意圖（最多3個）。"),
          ("enum", .arr [
            .str "A1. 查詢訂單狀態/進度",
            .str "A2. 修改訂單內容",
            .str "A3. 取消訂單",
            .str "A4. 查詢發票/收據",
            .str "B1. 詢問產品資訊",
            .str "B2. 詢問庫存狀況",
            .str "B3. 詢問價格與優惠",
            .str "B4. 比較產品"])]),
        ("suggested_responses", .obj [
          ("type", .str "array"),
          ("items", .obj [("type", .str "string")]),
          ("description", .str "建議回覆，可以是多個字串，最多3個。"),
          ("minItems", .int 1),
          ("maxItems", .int 3)]),
        ("customer_conversation_tags", .obj [
          ("type", .str "array"),
          ("items", .obj [("type", .str "string")]),
          ("description", .str "基於過往對話標籤和新訊息更新客戶對話標籤。如果沒有合適的既有標籤，請根據對話內容產生新的標籤。保留有意義的舊標籤。")])]),
      ("required", .arr [
        .str "session_end",
        .str "session_summary_user",
        .str "consumer_sentiment_score",
        .str "consumer_urgency_score",
        .str "consumer_purchase_potential_score",
        .str "potential_interest_products",
        .str "intent",
        .str "subintent",
        .str "suggested_responses",
        .str "customer_conversation_tags"])])]

/-- Python `function_calling_example`: builds and returns the tool declaration. -/
def function_calling_example : JVal := update_session_decl

/-- A credential value, treated as abstract data, as produced by
`Credentials.from_authorized_user_info` on the parsed file contents. -/
structure Cred where
  info : String
  deriving Repr, DecidableEq

/-- The Python exceptions visible to callers of the `Config` accessors, named
after the error taxonomy of the design spec: `fileAccessError` is the OSError
from `open`, `parseError` is the JSON decode error from `json.load` or the
ValueError from `Credentials.from_authorized_user_info`. -/
inductive CredError where
  | fileAccessError
  | parseError
  deriving Repr, DecidableEq

/-- The parts of the outside world the script observes: the credentials file
at `Config.ADC_PATH` and what happens when it is read and parsed. -/
structure Env where
  fileExists : Bool
  fileReadable : Bool
  validJson : Bool
  hasAuthFields : Bool
  credValue : Cred
  deriving Repr, DecidableEq

/-- A BigQuery client handle: the source constructs it as
`bigquery.Client(project=cls.PROJECT_ID, credentials=creds)`. -/
structure BQClient where
  project : String
  credentials : Cred
  deriving Repr, DecidableEq

/-- A GenAI client handle: the source constructs it as
`genai.Client(vertexai=True, project=cls.PROJECT_ID, location=cls.GENAI_LOCATION)`
— note there is no credentials field: the loaded `Cred` is not passed. -/
structure GenaiClient where
  vertexai : Bool
  project : String
  location : String
  deriving Repr, DecidableEq

/-- Process state: the environment plus the three `lru_cache(maxsize=1)`
memoization slots and a counter of successful file opens. -/
structure ProcState where
  env : Env
  credCache : Option Cred
  bqCache : Option BQClient
  genaiCache : Option GenaiClient
  fileReads : Nat
  deriving Repr, DecidableEq

namespace Config

/-- Constant `Config.ADC_PATH` before `os.path.expanduser` resolution. -/
def ADC_PATH : String := "~/.config/gcloud/application_default_credentials.json"

/-- Constant `Config.PROJECT_ID`. -/
def PROJECT_ID : String := "commanding-iris-806"

/-- Constant `Config.DATASET_ID`. -/
def DATASET_ID : String := "sony_test"

/-- Constant `Config.GENAI_LOCATION`. -/
def GENAI_LOCATION : String := "us-central1"

/-- Accessor `Config.load_credentials`: on a cache hit returns the memoized value
untouched; otherwise opens the ADC file (OSError when missing or unreadable),
parses it as JSON (decode error when malformed), builds the credential
(ValueError when the authorized-user fields are absent), and memoizes the
result. `lru_cache` caches only values, never exceptions, so the error paths
leave the cache slot empty; the successful open increments `fileReads`. -/
def load_credentials (s : ProcState) : Except CredError Cred × ProcState :=
  match s.credCache with
  | some c => (.ok c, s)
  | none =>
    if s.env.fileExists && s.env.fileReadable then
      let s1 : ProcState := { s with fileReads := s.fileReads + 1 }
      if s.env.validJson then
        if s.env.hasAuthFields then
          (.ok s.env.credValue, { s1 with credCache := some s.env.credValue })
        else
          (.error .parseError, s1)
      else
        (.error .parseError, s1)
    else
      (.error .fileAccessError, s)

/-- Accessor `Config.bigquery_client`: on a cache hit returns the memoized client;
otherwise calls `load_credentials` (whose exceptions propagate unchanged —
there is no try/except in the source) and constructs
`bigquery.Client(project=PROJECT_ID, credentials=creds)`, memoizing it. -/
def bigquery_client (s : ProcState) : Except CredError BQClient × ProcState :=
  match s.bqCache with
  | some c => (.ok c, s)
  | none =>
    match load_credentials s with
    | (.ok creds, s1) =>
      let client : BQClient := { project := PROJECT_ID, credentials := creds }
      (.ok client, { s1 with bqCache := some client })
    | (.error e, s1) => (.error e, s1)

/-- Accessor `Config.genai_client`: on a cache hit returns the memoized client;
otherwise constructs
`genai.Client(vertexai=True, project=PROJECT_ID, location=GENAI_LOCATION)`
and memoizes it. It neither calls `load_credentials` nor reads the file:
construction relies on ambient platform identity, resolved outside this code,
so in this model it always succeeds. -/
def genai_client (s : ProcState) : Except CredError GenaiClient × ProcState :=
  match s.genaiCache with
  | some c => (.ok c, s)
  | none =>
    let client : GenaiClient :=
      { vertexai := true, project := PROJECT_ID, location := GENAI_LOCATION }
    (.ok client, { s with genaiCache := some client })

end Config

/-- Embedding of `genai_types.Tool(function_declarations=[...])`. -/
structure Tool where
  function_declarations : List JVal
  deriving Repr

/-- Embedding of `genai_types.GenerateContentConfig(tools=..., temperature=...)`;
the float
temperature is modelled as a rational. -/
structure GenerateContentConfig where
  tools : List Tool
  temperature : ℚ
  deriving Repr

/-- The one outbound `client.models.generate_content(...)` call: the client it
is issued on and its keyword arguments. -/
structure Request where
  client : GenaiClient
  model : String
  contents : String
  config : GenerateContentConfig
  deriving Repr

/-- The raw response object returned by the hosted service; its contents are
chosen by the service, abstracted below as an oracle. -/
structure Response where
  payload : String
  deriving Repr, DecidableEq

/-- Python `gemini_function_calling_example`: builds the two tool declarations (the
second an empty dict placeholder), the empty prompt, the tools list and the
temperature-0.3 config; obtains the client from `Config.genai_client`; issues
one `generate_content` request against the fixed model string and returns the
raw response. `oracle` stands for the hosted service; the request issued is
recorded alongside the state. -/
def gemini_function_calling_example (oracle : Request → Response) (s : ProcState) :
    (Except CredError Response × ProcState) × List Request :=
  let function_calling_1 := function_calling_example
  let function_calling_2 : JVal := .obj []
  let prompt : String := ""
  let tools_list : List Tool :=
    [{ function_declarations := [function_calling_1] },
     { function_declarations := [function_calling_2] }]
  let config : GenerateContentConfig :=
    { tools := tools_list, temperature := 3 / 10 }
  match Config.genai_client s with
  | (.ok client, s1) =>
    let req : Request :=
      { client := client, model := "gemini-2.0-flash-lite",
        contents := prompt, config := config }
    ((.ok (oracle req), s1), [req])
  | (.error e, s1) => ((.error e, s1), [])

/-- Lifting of `function_calling_example` to the process state: its body is a
single dict literal, so the lifted form returns the value, leaves the state
unchanged, raises nothing and issues no request. -/
def function_calling_example_run (s : ProcState) :
    (Except CredError JVal × ProcState) × List Request :=
  ((.ok function_calling_example, s), [])

/-- The `minItems` bound declared by an array schema, with the JSON-Schema
default of 0 when absent. -/
def minItemsOf (schema : JVal) : Nat :=
  match jlookup schema "minItems" with
  | some (.int n) => n.toNat
  | _ => 0

/-- The `maxItems` bound declared by an array schema, `none` meaning
unbounded. -/
def maxItemsOf (schema : JVal) : Option Nat :=
  match jlookup schema "maxItems" with
  | some (.int n) => some n.toNat
  | _ => none

/-- JSON-Schema array-length validation against the declared
`minItems`/`maxItems` bounds. -/
def itemCountOk (schema : JVal) (len : Nat) : Bool :=
  decide (minItemsOf schema ≤ len) &&
    (match maxItemsOf schema with
     | some m => decide (len ≤ m)
     | none => true)

/-- The schema of one property of the `update_session` tool parameters. -/
def propSchema (field : String) : JVal :=
  (jget function_calling_example ["parameters", "properties", field]).getD (.obj [])

/-- The `required` list of the `update_session` tool parameters. -/
def requiredFields : List JVal :=
  match jget function_calling_example ["parameters", "required"] with
  | some (.arr l) => l
  | _ => []

/-- A fixed credential value for concrete test states. -/
def cred0 : Cred := { info := "authorized-user-info" }

/-- Environment with a present, readable, well-formed credentials file. -/
def goodEnv : Env :=
  { fileExists := true, fileReadable := true, validJson := true,
    hasAuthFields := true, credValue := cred0 }

/-- Environment whose credentials file is missing. -/
def missingEnv : Env := { goodEnv with fileExists := false, fileReadable := false }

/-- Environment whose credentials file holds malformed JSON. -/
def badJsonEnv : Env := { goodEnv with validJson := false }

/-- A fresh process: nothing memoized, nothing read, nothing sent. -/
def freshState (e : Env) : ProcState :=
  { env := e, credCache := none, bqCache := none, genaiCache := none,
    fileReads := 0 }

/-- Fresh process with a valid credentials file. -/
def validState : ProcState := freshState goodEnv

/-- Fresh process with the credentials file missing. -/
def missingState : ProcState := freshState missingEnv

/-- Fresh process with a malformed credentials file. -/
def badJsonState : ProcState := freshState badJsonEnv

/-- Process whose credential was loaded before the file went missing. -/
def missingStateCredCached : ProcState := { missingState with credCache := some cred0 }

/-- The BigQuery client built from `cred0`. -/
def bqClient0 : BQClient := { project := Config.PROJECT_ID, credentials := cred0 }

/-- Process whose BigQuery client was memoized before the file went missing. -/
def missingStateBqCached : ProcState := { missingState with bqCache := some bqClient0 }

/-- State `validState` after a successful first `load_credentials` call. -/
def credLoadedState : ProcState :=
  { validState with credCache := some cred0, fileReads := 1 }

/-- State `validState` after a successful first `bigquery_client` call. -/
def bqLoadedState : ProcState := { credLoadedState with bqCache := some bqClient0 }

/-- A service stub that echoes the request contents back. -/
def echoOracle : Request → Response := fun r => { payload := r.contents }

/-- Claim C2: the tool schema names the tool "update_session" and its
`required` list is exactly the ten fields session_end, session_summary_user,
consumer_sentiment_score, consumer_urgency_score,
consumer_purchase_potential_score, potential_interest_products, intent,
subintent, suggested_responses, customer_conversation_tags — no more, no
fewer. -/
theorem claim_C2_required_fields :
    jlookup function_calling_example "name" = some (.str "update_session") ∧
    jget function_calling_example ["parameters", "required"] =
      some (.arr [
        .str "session_end",
        .str "session_summary_user",
        .str "consumer_sentiment_score",
        .str "consumer_urgency_score",
        .str "consumer_purchase_potential_score",
        .str "potential_interest_products",
        .str "intent",
        .str "subintent",
        .str "suggested_responses",
        .str "customer_conversation_tags"]) :=
  ⟨rfl, rfl⟩

/-- Claim C3: the `subintent` schema declares maxItems = 3, and the
`suggested_responses` schema declares minItems = 1 and maxItems = 3. -/
theorem claim_C3_item_bounds :
    jget function_calling_example
        ["parameters", "properties", "subintent", "maxItems"] = some (.int 3) ∧
    jget function_calling_example
        ["parameters", "properties", "suggested_responses", "minItems"] = some (.int 1) ∧
    jget function_calling_example
        ["parameters", "properties", "suggested_responses", "maxItems"] = some (.int 3) :=
  ⟨rfl, rfl, rfl⟩

/-- Claim C8: `function_calling_example` is deterministic and pure: lifted to
the process state it returns the fixed declaration value, leaves the state
unchanged (hence performs no file read and no request), has no error outcome,
and its value agrees across any two prior program states. -/
theorem claim_C8_pure_deterministic (s t : ProcState) :
    function_calling_example_run s = ((.ok update_session_decl, s), []) ∧
    (function_calling_example_run s).1.1 = (function_calling_example_run t).1.1 :=
  ⟨rfl, rfl⟩

/-- Claim C8 witness: instantiation at two concrete states. -/
theorem claim_C8_witness :
    function_calling_example_run validState = ((.ok update_session_decl, validState), []) ∧
    (function_calling_example_run validState).1.1 =
      (function_calling_example_run missingState).1.1 :=
  claim_C8_pure_deterministic validState missingState

/-- Claim C9: the schema enum strings are exactly each code of each taxonomy entry,
then ". ", then its label: the intent enum is the rendering of all of INTENT
(2 entries) and the subintent enum the rendering of all of SUBINTENT
(8 entries), so the two representations currently coincide. -/
theorem claim_C9_enum_matches_taxonomy :
    jget function_calling_example ["parameters", "properties", "intent", "enum"] =
      some (.arr (enumOfTaxonomy INTENT)) ∧
    jget function_calling_example ["parameters", "properties", "subintent", "enum"] =
      some (.arr (enumOfTaxonomy SUBINTENT)) ∧
    INTENT.length = 2 ∧ SUBINTENT.length = 8 :=
  ⟨rfl, rfl, rfl, rfl⟩

/-- Claim C10: the `subintent` schema carries no minItems constraint, only
maxItems = 3, so the empty array passes its declared bounds even though
subintent is required (it is the eighth entry of the `required` list) — in
contrast to `suggested_responses`, whose bounds reject the empty array and
accept a singleton. -/
theorem claim_C10_empty_subintent_allowed :
    jlookup (propSchema "subintent") "minItems" = none ∧
    jlookup (propSchema "subintent") "maxItems" = some (.int 3) ∧
    itemCountOk (propSchema "subintent") 0 = true ∧
    itemCountOk (propSchema "suggested_responses") 0 = false ∧
    itemCountOk (propSchema "suggested_responses") 1 = true ∧
    requiredFields[7]? = some (.str "subintent") :=
  ⟨rfl, rfl, rfl, rfl, rfl, rfl⟩

/-- After a successful `load_credentials` call the returned credential sits in
the memoization slot of the resulting state. -/
lemma load_credentials_ok_cache (s : ProcState) (c : Cred) (t : ProcState)
    (h : Config.load_credentials s = (.ok c, t)) : t.credCache = some c := by
  unfold Config.load_credentials at h
  split at h
  · obtain ⟨h1, h2⟩ := Prod.mk.injEq .. ▸ h
    subst h2
    rename_i c' heq
    simpa [heq] using h1
  · split at h
    · split at h
      · split at h
        · obtain ⟨h1, h2⟩ := Prod.mk.injEq .. ▸ h
          subst h2
          simpa using h1
        · exact absurd h (by simp)
      · exact absurd h (by simp)
    · exact absurd h (by simp)

/-- A successful `load_credentials` call opens the file at most once. -/
lemma load_credentials_reads (s : ProcState) (c : Cred) (t : ProcState)
    (h : Config.load_credentials s = (.ok c, t)) : t.fileReads ≤ s.fileReads + 1 := by
  unfold Config.load_credentials at h
  split at h
  · obtain ⟨h1, h2⟩ := Prod.mk.injEq .. ▸ h
    subst h2
    omega
  · split at h
    · split at h
      · split at h
        · obtain ⟨h1, h2⟩ := Prod.mk.injEq .. ▸ h
          subst h2
          simp
        · exact absurd h (by simp)
      · exact absurd h (by simp)
    · exact absurd h (by simp)

/-- After a successful `bigquery_client` call the returned client sits in the
memoization slot of the resulting state. -/
lemma bigquery_client_ok_cache (s : ProcState) (b : BQClient) (t : ProcState)
    (h : Config.bigquery_client s = (.ok b, t)) : t.bqCache = some b := by
  unfold Config.bigquery_client at h
  split at h
  · obtain ⟨h1, h2⟩ := Prod.mk.injEq .. ▸ h
    subst h2
    rename_i b' heq
    simpa [heq] using h1
  · split at h
    · obtain ⟨h1, h2⟩ := Prod.mk.injEq .. ▸ h
      subst h2
      simpa using h1
    · exact absurd h (by simp)

/-- After a successful `genai_client` call the returned client sits in the
memoization slot of the resulting state. -/
lemma genai_client_ok_cache (s : ProcState) (g : GenaiClient) (t : ProcState)
    (h : Config.genai_client s = (.ok g, t)) : t.genaiCache = some g := by
  unfold Config.genai_client at h
  split at h
  · obtain ⟨h1, h2⟩ := Prod.mk.injEq .. ▸ h
    subst h2
    rename_i g' heq
    simpa [heq] using h1
  · obtain ⟨h1, h2⟩ := Prod.mk.injEq .. ▸ h
    subst h2
    simpa using h1

/-- Claim C6: once a `load_credentials` call has succeeded, calling it again
returns the identical cached credential and the identical state — in
particular the file-read counter does not move, so the backing file is never
reopened — and on the successful path the whole first call read the file at
most once; likewise each client accessor, called again after a success,
returns the identical cached client with the state unchanged. -/
theorem claim_C6_memoization (s : ProcState) :
    (∀ c t, Config.load_credentials s = (.ok c, t) →
      Config.load_credentials t = (.ok c, t) ∧ t.fileReads ≤ s.fileReads + 1) ∧
    (∀ b t, Config.bigquery_client s = (.ok b, t) →
      Config.bigquery_client t = (.ok b, t)) ∧
    (∀ g t, Config.genai_client s = (.ok g, t) →
      Config.genai_client t = (.ok g, t)) := by
  refine ⟨fun c t h => ⟨?_, load_credentials_reads s c t h⟩, fun b t h => ?_, fun g t h => ?_⟩
  · unfold Config.load_credentials
    rw [load_credentials_ok_cache s c t h]
  · unfold Config.bigquery_client
    rw [bigquery_client_ok_cache s b t h]
  · unfold Config.genai_client
    rw [genai_client_ok_cache s g t h]

/-- Claim C6 witness: on a fresh state with a valid file, the first load
succeeds, and the theorem yields that the second call returns the same
credential with the state (and so the read counter) unchanged. -/
theorem claim_C6_witness :
    Config.load_credentials credLoadedState = (.ok cred0, credLoadedState) ∧
    credLoadedState.fileReads ≤ validState.fileReads + 1 :=
  (claim_C6_memoization validState).1 cred0 credLoadedState (by rfl)

/-- Claim C4 counterexample: three process states in which the credentials
file is missing and yet, against the claim, an accessor succeeds — in a fresh
state `genai_client` still succeeds (it never consults the credentials), with
a previously memoized credential `load_credentials` itself succeeds, and with
a previously memoized client `bigquery_client` succeeds. -/
theorem claim_C4_counterexample :
    missingState.env.fileExists = false ∧
    (Config.genai_client missingState).1 =
      .ok { vertexai := true, project := Config.PROJECT_ID,
            location := Config.GENAI_LOCATION } ∧
    missingStateCredCached.env.fileExists = false ∧
    (Config.load_credentials missingStateCredCached).1 = .ok cred0 ∧
    missingStateBqCached.env.fileExists = false ∧
    (Config.bigquery_client missingStateBqCached).1 = .ok bqClient0 :=
  ⟨rfl, rfl, rfl, rfl, rfl, rfl⟩

/-- Claim C4 (amended): in every process state where the credentials file is
missing and neither a credential nor a BigQuery client is already memoized,
`load_credentials` fails with FileAccessError and leaves the state unchanged,
and afterwards no `bigquery_client` call succeeds (it fails with the same
FileAccessError); `genai_client`, which is built without the loaded
credentials, succeeds regardless. -/
theorem claim_C4_missing_file (s : ProcState)
    (hfile : s.env.fileExists = false)
    (hcred : s.credCache = none)
    (hbq : s.bqCache = none) :
    Config.load_credentials s = (.error .fileAccessError, s) ∧
    (Config.bigquery_client s).1 = .error .fileAccessError ∧
    ∃ g, (Config.genai_client s).1 = .ok g := by
  have hl : Config.load_credentials s = (.error .fileAccessError, s) := by
    unfold Config.load_credentials
    rw [hcred]
    simp [hfile]
  refine ⟨hl, ?_, ?_⟩
  · unfold Config.bigquery_client
    rw [hbq, hl]
  · unfold Config.genai_client
    cases hg : s.genaiCache with
    | some c => exact ⟨c, rfl⟩
    | none => exact ⟨_, rfl⟩

/-- Claim C4 witness: the amended statement instantiated at the fresh
missing-file state. -/
theorem claim_C4_witness :
    Config.load_credentials missingState = (.error .fileAccessError, missingState) ∧
    (Config.bigquery_client missingState).1 = .error .fileAccessError ∧
    ∃ g, (Config.genai_client missingState).1 = .ok g :=
  claim_C4_missing_file missingState rfl rfl rfl

/-- Claim C5: the two client constructors authenticate asymmetrically — a
freshly constructed BigQuery client carries the fixed project identifier and
exactly the credential that `load_credentials` produced, whereas a freshly
constructed GenAI client carries the fixed project identifier and region, is
flagged for the platform identity mechanism, and has no credentials field at
all; indeed the `genai_client` result depends on nothing in the state beyond
its own memoization slot — in particular not on the credentials file or the
loaded credential. -/
theorem claim_C5_asymmetric_auth :
    (∀ s b t, s.bqCache = none → Config.bigquery_client s = (.ok b, t) →
      b.project = Config.PROJECT_ID ∧
      (Config.load_credentials s).1 = .ok b.credentials) ∧
    (∀ s g t, s.genaiCache = none → Config.genai_client s = (.ok g, t) →
      g = { vertexai := true, project := Config.PROJECT_ID,
            location := Config.GENAI_LOCATION }) ∧
    (∀ s s', s.genaiCache = s'.genaiCache →
      (Config.genai_client s).1 = (Config.genai_client s').1) := by
  refine ⟨fun s b t hbq h => ?_, fun s g t hg h => ?_, fun s s' hg => ?_⟩
  · unfold Config.bigquery_client at h
    rcases hl : Config.load_credentials s with ⟨r, s1⟩
    cases r with
    | ok creds =>
      simp only [hbq, hl] at h
      obtain ⟨h1, h2⟩ := Prod.mk.injEq .. ▸ h
      have hb : ({ project := Config.PROJECT_ID, credentials := creds } : BQClient) = b := by
        simpa using h1
      subst hb
      exact ⟨rfl, rfl⟩
    | error e =>
      simp only [hbq, hl] at h
      exact absurd h (by simp)
  · unfold Config.genai_client at h
    rw [hg] at h
    obtain ⟨h1, h2⟩ := Prod.mk.injEq .. ▸ h
    simpa using h1.symm
  · unfold Config.genai_client
    rw [hg.symm]
    cases s.genaiCache <;> rfl

/-- Claim C5 witness: on the fresh valid state, the first call to
`bigquery_client` yields a client carrying the fixed project identifier and
the loaded credential. -/
theorem claim_C5_witness :
    bqClient0.project = Config.PROJECT_ID ∧
    (Config.load_credentials validState).1 = .ok bqClient0.credentials :=
  claim_C5_asymmetric_auth.1 validState bqClient0 bqLoadedState rfl (by rfl)

/-- Claim C7: with the memoization slots empty, `load_credentials` fails with
FileAccessError exactly when the credentials file is missing or unreadable,
and with ParseError exactly when the file is present and readable but its
content is not valid JSON or lacks the required authorization fields; no
failure is caught inside the module — whatever error `load_credentials`
raises, `bigquery_client` propagates it unchanged to its caller. -/
theorem claim_C7_failure_conditions (s : ProcState)
    (hcred : s.credCache = none) (hbq : s.bqCache = none) :
    ((Config.load_credentials s).1 = .error .fileAccessError ↔
      (s.env.fileExists = false ∨ s.env.fileReadable = false)) ∧
    ((Config.load_credentials s).1 = .error .parseError ↔
      (s.env.fileExists = true ∧ s.env.fileReadable = true ∧
        (s.env.validJson = false ∨ s.env.hasAuthFields = false))) ∧
    (∀ e, (Config.load_credentials s).1 = .error e →
      (Config.bigquery_client s).1 = .error e) := by
  have hprop : ∀ e, (Config.load_credentials s).1 = .error e →
      (Config.bigquery_client s).1 = .error e := by
    intro e he
    unfold Config.bigquery_client
    rw [hbq]
    rcases hl : Config.load_credentials s with ⟨r, s1⟩
    rw [hl] at he
    simp only at he
    subst he
    rfl
  refine ⟨?_, ?_, hprop⟩ <;>
  · unfold Config.load_credentials
    rw [hcred]
    cases hfe : s.env.fileExists <;> cases hfr : s.env.fileReadable <;>
      cases hvj : s.env.validJson <;> cases hha : s.env.hasAuthFields <;>
      simp

/-- Claim C7 witness: the failure-condition equivalences instantiated at
concrete states — a malformed file yields ParseError, a missing file yields
FileAccessError and `bigquery_client` surfaces that same error. -/
theorem claim_C7_witness :
    (Config.load_credentials badJsonState).1 = .error .parseError ∧
    (Config.load_credentials missingState).1 = .error .fileAccessError ∧
    (Config.bigquery_client missingState).1 = .error .fileAccessError := by
  refine ⟨(claim_C7_failure_conditions badJsonState rfl rfl).2.1.mpr
    ⟨rfl, rfl, Or.inl rfl⟩, ?_, ?_⟩
  · exact (claim_C7_failure_conditions missingState rfl rfl).1.mpr (Or.inl rfl)
  · exact (claim_C7_failure_conditions missingState rfl rfl).2.2 .fileAccessError
      ((claim_C7_failure_conditions missingState rfl rfl).1.mpr (Or.inl rfl))

/-- Claim C1: `gemini_function_calling_example` issues exactly one request;
that request carries the fixed model identifier "gemini-2.0-flash-lite", the
prompt built in the function (the empty string), a config with fixed
temperature 0.3 and exactly two tool definitions — the first wrapping the
`update_session` declaration and the second wrapping the empty placeholder
dict — on the client obtained from `Config.genai_client`; and the call
returns the raw response of the service to that request unchanged. -/
theorem claim_C1_generate_with_tools (oracle : Request → Response) (s : ProcState) :
    ∃ req : Request,
      gemini_function_calling_example oracle s =
        ((.ok (oracle req), (Config.genai_client s).2), [req]) ∧
      (Config.genai_client s).1 = .ok req.client ∧
      req.model = "gemini-2.0-flash-lite" ∧
      req.contents = "" ∧
      req.config.temperature = 3 / 10 ∧
      req.config.tools =
        [{ function_declarations := [function_calling_example] },
         { function_declarations := [.obj []] }] := by
  unfold gemini_function_calling_example Config.genai_client
  cases hg : s.genaiCache with
  | some c =>
    exact ⟨{ client := c, model := "gemini-2.0-flash-lite", contents := "",
             config := { tools := [{ function_declarations := [function_calling_example] },
                                   { function_declarations := [.obj []] }],
                         temperature := 3 / 10 } },
           rfl, rfl, rfl, rfl, rfl, rfl⟩
  | none =>
    exact ⟨{ client := { vertexai := true, project := Config.PROJECT_ID,
                         location := Config.GENAI_LOCATION },
             model := "gemini-2.0-flash-lite", contents := "",
             config := { tools := [{ function_declarations := [function_calling_example] },
                                   { function_declarations := [.obj []] }],
                         temperature := 3 / 10 } },
           rfl, rfl, rfl, rfl, rfl, rfl⟩

/-- Claim C1 witness: instantiation at the echoing service stub and the fresh
valid state. -/
theorem claim_C1_witness :
    ∃ req : Request,
      gemini_function_calling_example echoOracle validState =
        ((.ok (echoOracle req), (Config.genai_client validState).2), [req]) ∧
      (Config.genai_client validState).1 = .ok req.client ∧
      req.model = "gemini-2.0-flash-lite" ∧
      req.contents = "" ∧
      req.config.temperature = 3 / 10 ∧
      req.config.tools =
        [{ function_declarations := [function_calling_example] },
         { function_declarations := [.obj []] }] :=
  claim_C1_generate_with_tools echoOracle validState

end GcpSettingExample
